import Mathlib

/-!
Verification of the evdev device-capability and keymap layer.

The package under `src/keys.go` defines the `KeymapEntry` record, the
keymap ioctl wrappers (`Device.KeyState`, `Device.KeyMap`,
`Device.SetKeyMap`) and the key/button constant tables.  The supporting
pieces that live in the repository's other files (the `Device` handle,
the `Bitset` type, the `ioctl` wrapper and the event transport) are
modelled here from the specification's description of them; every such
definition carries a doc comment starting with `Modelled from the spec:`.

Machine integers are embedded as `Nat`/`Int` with explicit reduction
modulo `2^w` where Go performs a truncating conversion.
-/

namespace Evdev

/-- Maximum key/button code, from `src/keys.go`: `KeyMax = 0x2ff`. -/
def KeyMax : Nat := 0x2ff

/-- Number of key codes, from `src/keys.go`: `KeyCount = KeyMax + 1`. -/
def KeyCount : Nat := KeyMax + 1

/-- Modelled from the spec: the maximum event-type code (the event-type
constant table is not under `src/`); the exact value is irrelevant to the
claims, only that `EventTypes` sizes its bitset by it. -/
def EvMax : Nat := 0x1f

/-- Go's `uint32(n)` conversion on a (64-bit) `int`: the value reduced
modulo `2^32`, i.e. the low 32 bits of the two's-complement form. -/
def goUint32 (n : Int) : Nat := (n % (2 ^ 32 : Int)).toNat

/-- The keymap record of `src/keys.go`:
`Flags uint8, Len uint8, Index uint16, Keycode uint32, Scancode [32]uint8`.
Widths are tracked by the wire serialisation below. -/
structure KeymapEntry where
  Flags : Nat
  Len : Nat
  Index : Nat
  Keycode : Nat
  Scancode : Fin 32 → Nat
deriving DecidableEq

/-- The zero value of `KeymapEntry`, as produced by Go's `var entry KeymapEntry`. -/
def KeymapEntry.zero : KeymapEntry :=
  { Flags := 0, Len := 0, Index := 0, Keycode := 0, Scancode := fun _ => 0 }

/-- An ioctl error value (Go returns `error`; `nil` is success). -/
inductive IoctlErr where
  | errno (n : Nat)
deriving DecidableEq

/-- Modelled from the spec: the kernel side of the evdev ioctls
(the `ioctl` wrapper and `Device` live outside `src/`).  `getKeycode`
answers `EVIOCGKEYCODE` (`none` = ioctl error, `some e` = buffer contents
after a successful call); `setKeycode` answers `EVIOCSKEYCODE` with the
returned error, `none` meaning success; `keyBits` is the current global
key/button press state read by `EVIOCGKEY`; `typeBits` the supported
event-type mask; the two `Ok` flags tell whether those bulk queries
succeed. -/
structure Kernel where
  getKeycode : KeymapEntry → Option KeymapEntry
  setKeycode : KeymapEntry → Option IoctlErr
  keyBits : Nat → Bool
  getKeyOk : Bool
  typeBits : Nat → Bool
  getTypesOk : Bool

/-- Modelled from the spec: the device handle (`device.go` is not under
`src/`) — an open file descriptor plus the kernel behind it; `closed`
records that `Close()` has completed, after which every ioctl on the
descriptor fails. -/
structure Device where
  closed : Bool
  kernel : Kernel

/-- Modelled from the spec: a bitset of fixed capacity — a declared
maximum bit index over packed fixed-width (64-bit) word storage
(`bitset.go` is not under `src/`).  `data` holds one entry per storage
bit. -/
structure Bitset where
  maxBits : Nat
  data : List Bool
deriving DecidableEq

/-- Modelled from the spec: `New(maxBits)` builds a zeroed bitset sized to
hold `maxBits` indices, rounded up to the word width. -/
def NewBitset (maxBits : Nat) : Bitset :=
  { maxBits := maxBits, data := List.replicate (64 * ((maxBits + 63) / 64)) false }

/-- Modelled from the spec: `Len()` returns the declared bit capacity. -/
def Bitset.Len (b : Bitset) : Nat := b.maxBits

/-- Modelled from the spec: `Test(i)` — bit `i`, `false` when unset;
out-of-range indices are handled defensively (no out-of-bounds access). -/
def Bitset.Test (b : Bitset) (i : Nat) : Bool := b.data.getD i false

/-- Modelled from the spec: the `EVIOCGKEY` ioctl — fails when the
descriptor is closed or the kernel rejects the request, otherwise fills
the caller's buffer with the current key state, leaving its size
untouched. -/
def ioctlGetKey (d : Device) (bs : Bitset) : Option Bitset :=
  if d.closed || !d.kernel.getKeyOk then none
  else some { bs with data := (List.range bs.data.length).map d.kernel.keyBits }

/-- Modelled from the spec: the `EVIOCGBIT` ioctl for the global
event-type mask, same failure discipline as `ioctlGetKey`. -/
def ioctlGetTypes (d : Device) (bs : Bitset) : Option Bitset :=
  if d.closed || !d.kernel.getTypesOk then none
  else some { bs with data := (List.range bs.data.length).map d.kernel.typeBits }

/-- Modelled from the spec: the `EVIOCGKEYCODE` ioctl — fails on a closed
descriptor, otherwise defers to the kernel; on failure the caller's
buffer is left unchanged. -/
def ioctlGetKeycode (d : Device) (e : KeymapEntry) : Option KeymapEntry :=
  if d.closed then none else d.kernel.getKeycode e

/-- Modelled from the spec: the `EVIOCSKEYCODE` ioctl — `EBADF` on a
closed descriptor, otherwise the kernel's verdict (`none` = success). -/
def ioctlSetKeycode (d : Device) (e : KeymapEntry) : Option IoctlErr :=
  if d.closed then some (.errno 9) else d.kernel.setKeycode e

/-- `Device.KeyState` from `src/keys.go`: allocate `NewBitset(KeyMax)`,
hand its buffer to the `EVIOCGKEY` ioctl, and return the bitset — the
ioctl error is ignored, so on failure the fresh zeroed bitset is
returned. -/
def Device.KeyState (d : Device) : Bitset :=
  match ioctlGetKey d (NewBitset KeyMax) with
  | some filled => filled
  | none => NewBitset KeyMax

/-- Modelled from the spec: `EventTypes()` — the global capability mask
over the event-type code space, with the same swallow-the-error policy
as `KeyState` (its code is not under `src/`). -/
def Device.EventTypes (d : Device) : Bitset :=
  match ioctlGetTypes d (NewBitset EvMax) with
  | some filled => filled
  | none => NewBitset EvMax

/-- The request record `Device.KeyMap` builds in `src/keys.go`:
`var entry KeymapEntry; entry.Keycode = uint32(keycode)`. -/
def keyMapRequest (keycode : Int) : KeymapEntry :=
  { KeymapEntry.zero with Keycode := goUint32 keycode }

/-- `Device.KeyMap` from `src/keys.go`: build the request, run
`EVIOCGKEYCODE` on it, and return the buffer; the ioctl error is
ignored, so on failure the request record itself (zero except its
`Keycode` field) is returned. -/
def Device.KeyMap (d : Device) (keycode : Int) : KeymapEntry :=
  match ioctlGetKeycode d (keyMapRequest keycode) with
  | some e => e
  | none => keyMapRequest keycode

/-- `Device.SetKeyMap` from `src/keys.go`:
`return ioctl(d.fd.Fd(), _EVIOCSKEYCODE, unsafe.Pointer(&entry)) == nil`. -/
def Device.SetKeyMap (d : Device) (entry : KeymapEntry) : Bool :=
  (ioctlSetKeycode d entry).isNone

/-- Little-endian bytes of a 16-bit field, as laid out in the Go struct
on a little-endian machine. -/
def u16le (n : Nat) : List Nat := [n % 256, n / 256 % 256]

/-- Little-endian bytes of a 32-bit field. -/
def u32le (n : Nat) : List Nat :=
  [n % 256, n / 2 ^ 8 % 256, n / 2 ^ 16 % 256, n / 2 ^ 24 % 256]

/-- The wire image of a `KeymapEntry` as passed by reference to the
keymap ioctls: the fields of the Go struct in declaration order —
1-byte `Flags` at offset 0, 1-byte `Len` at offset 1, 2-byte `Index` at
offset 2, 4-byte `Keycode` at offset 4, the 32-byte `Scancode` buffer at
offset 8 (the struct has no padding: offsets 0,1,2,4,8, total 40). -/
def KeymapEntry.wireBytes (e : KeymapEntry) : List Nat :=
  e.Flags % 256 :: e.Len % 256 :: (u16le e.Index ++ u32le e.Keycode ++ List.ofFn e.Scancode)

/-- Read a `KeymapEntry` back from its wire image, field by field at the
fixed offsets 0, 1, 2, 4 and 8. -/
def KeymapEntry.ofWireBytes : List Nat → KeymapEntry
  | f :: l :: i0 :: i1 :: k0 :: k1 :: k2 :: k3 :: rest =>
      { Flags := f, Len := l, Index := i0 + 2 ^ 8 * i1,
        Keycode := k0 + 2 ^ 8 * k1 + 2 ^ 16 * k2 + 2 ^ 24 * k3,
        Scancode := fun j => rest.getD j.val 0 }
  | _ => KeymapEntry.zero

/-- An input event as carried by the transport.  Modelled from the spec:
the event wire format is a fixed-size record — timestamp (seconds,
microseconds), 16-bit type, 16-bit code, 32-bit signed value (the event
code is not under `src/`). -/
structure Event where
  Sec : Nat
  Usec : Nat
  Typ : Nat
  Code : Nat
  Value : Int
deriving DecidableEq

/-- Value of a little-endian byte list. -/
def leNat (bs : List Nat) : Nat := bs.foldr (fun b acc => b + 256 * acc) 0

/-- Modelled from the spec: decoding one raw 24-byte event record
(8-byte seconds, 8-byte microseconds, 16-bit type, 16-bit code, 32-bit
signed value, machine little-endian); a short or malformed record fails
to decode. -/
def decodeEvent (bs : List Nat) : Option Event :=
  if bs.length = 24 ∧ ∀ b ∈ bs, b < 256 then
    some { Sec := leNat (bs.take 8)
           Usec := leNat ((bs.drop 8).take 8)
           Typ := leNat ((bs.drop 16).take 2)
           Code := leNat ((bs.drop 18).take 2)
           Value :=
             if leNat ((bs.drop 20).take 4) < 2 ^ 31
             then (leNat ((bs.drop 20).take 4) : Int)
             else (leNat ((bs.drop 20).take 4) : Int) - 2 ^ 32 }
  else none

/-- Modelled from the spec: the inbound pump — it repeatedly reads one
raw record from the descriptor, decodes it, and delivers the `Event` on
the inbound channel; a decode failure is fatal to the direction: the
pump stops and the channel closes.  The pump applied to the (finite)
sequence of records the kernel produced yields the sequence of events
delivered on the channel, in delivery order. -/
def pollInbox : List (List Nat) → List Event
  | [] => []
  | r :: rs =>
      match decodeEvent r with
      | some e => e :: pollInbox rs
      | none => []

/-- Named key and button code constants from the tables in `src/keys.go`
(`KeyMax` and `KeyCount` are declared at the top of this file). -/
def InputKeymapByIndex : Nat := 1

def KeyReserved : Nat := 0
def KeyEscape : Nat := 1
def Key1 : Nat := 2
def Key2 : Nat := 3
def Key3 : Nat := 4
def Key4 : Nat := 5
def Key5 : Nat := 6
def Key6 : Nat := 7
def Key7 : Nat := 8
def Key8 : Nat := 9
def Key9 : Nat := 10
def Key0 : Nat := 11
def KeyMinus : Nat := 12
def KeyEqual : Nat := 13
def KeyBackSpace : Nat := 14
def KeyTab : Nat := 15
def KeyQ : Nat := 16
def KeyW : Nat := 17
def KeyE : Nat := 18
def KeyR : Nat := 19
def KeyT : Nat := 20
def KeyY : Nat := 21
def KeyU : Nat := 22
def KeyI : Nat := 23
def KeyO : Nat := 24
def KeyP : Nat := 25
def KeyLeftBrace : Nat := 26
def KeyRightBrace : Nat := 27
def KeyEnter : Nat := 28
def KeyLeftCtrl : Nat := 29
def KeyA : Nat := 30
def KeyS : Nat := 31
def KeyD : Nat := 32
def KeyF : Nat := 33
def KeyG : Nat := 34
def KeyH : Nat := 35
def KeyJ : Nat := 36
def KeyK : Nat := 37
def KeyL : Nat := 38
def KeySemiColon : Nat := 39
def KeyApostrophe : Nat := 40
def KeyGrave : Nat := 41
def KeyLeftShift : Nat := 42
def KeyBackSlash : Nat := 43
def KeyZ : Nat := 44
def KeyX : Nat := 45
def KeyC : Nat := 46
def KeyV : Nat := 47
def KeyB : Nat := 48
def KeyN : Nat := 49
def KeyM : Nat := 50
def KeyComma : Nat := 51
def KeyDot : Nat := 52
def KeySlash : Nat := 53
def KeyRightShift : Nat := 54
def KeyKPAsterisk : Nat := 55
def KeyLeftAlt : Nat := 56
def KeySpace : Nat := 57
def KeyCapsLock : Nat := 58
def KeyF1 : Nat := 59
def KeyF2 : Nat := 60
def KeyF3 : Nat := 61
def KeyF4 : Nat := 62
def KeyF5 : Nat := 63
def KeyF6 : Nat := 64
def KeyF7 : Nat := 65
def KeyF8 : Nat := 66
def KeyF9 : Nat := 67
def KeyF10 : Nat := 68
def KeyNumLock : Nat := 69
def KeyScrollLock : Nat := 70
def KeyKP7 : Nat := 71
def KeyKP8 : Nat := 72
def KeyKP9 : Nat := 73
def KeyKPMinus : Nat := 74
def KeyKP4 : Nat := 75
def KeyKP5 : Nat := 76
def KeyKP6 : Nat := 77
def KeyKPPlus : Nat := 78
def KeyKP1 : Nat := 79
def KeyKP2 : Nat := 80
def KeyKP3 : Nat := 81
def KeyKP0 : Nat := 82
def KeyKPDot : Nat := 83
def KeyZenkakuhankaku : Nat := 85
def Key102ND : Nat := 86
def KeyF11 : Nat := 87
def KeyF12 : Nat := 88
def KeyRO : Nat := 89
def KeyKatakana : Nat := 90
def KeyHiragana : Nat := 91
def KeyHenkan : Nat := 92
def KeyKatakanaHiragana : Nat := 93
def KeyMuhenkan : Nat := 94
def KeyKPJPComma : Nat := 95
def KeyKPEnter : Nat := 96
def KeyRightCtrl : Nat := 97
def KeyKPSlash : Nat := 98
def KeySysRQ : Nat := 99
def KeyRightAlt : Nat := 100
def KeyLineFeed : Nat := 101
def KeyHome : Nat := 102
def KeyUp : Nat := 103
def KeyPageUp : Nat := 104
def KeyLeft : Nat := 105
def KeyRight : Nat := 106
def KeyEnd : Nat := 107
def KeyDown : Nat := 108
def KeyPageDown : Nat := 109
def KeyInsert : Nat := 110
def KeyDelete : Nat := 111
def KeyMacro : Nat := 112
def KeyMute : Nat := 113
def KeyVolumeDown : Nat := 114
def KeyVolumeUp : Nat := 115
def KeyPower : Nat := 116
def KeyKPEqual : Nat := 117
def KeyKPPlusMinus : Nat := 118
def KeyPause : Nat := 119
def KeyScale : Nat := 120
def KeyKPComma : Nat := 121
def KeyHangeul : Nat := 122
def KeyHanguel : Nat := KeyHangeul
def KeyHanja : Nat := 123
def KeyYen : Nat := 124
def KeyLeftMeta : Nat := 125
def KeyRightMeta : Nat := 126
def KeyCompose : Nat := 127
def KeyStop : Nat := 128
def KeyAgain : Nat := 129
def KeyProps : Nat := 130
def KeyUndo : Nat := 131
def KeyFront : Nat := 132
def KeyCopy : Nat := 133
def KeyOpen : Nat := 134
def KeyPaste : Nat := 135
def KeyFind : Nat := 136
def KeyCut : Nat := 137
def KeyHelp : Nat := 138
def KeyMenu : Nat := 139
def KeyCalc : Nat := 140
def KeySetup : Nat := 141
def KeySleep : Nat := 142
def KeyWakeup : Nat := 143
def KeyFile : Nat := 144
def KeySendFile : Nat := 145
def KeyDeleteFile : Nat := 146
def KeyXFer : Nat := 147
def KeyProg1 : Nat := 148
def KeyProg2 : Nat := 149
def KeyWWW : Nat := 150
def KeyMSDOS : Nat := 151
def KeyCoffee : Nat := 152
def KeyScreenlock : Nat := KeyCoffee
def KeyDirection : Nat := 153
def KeyCycleWindows : Nat := 154
def KeyMail : Nat := 155
def KeyBookmarks : Nat := 156
def KeyComputer : Nat := 157
def KeyBack : Nat := 158
def KeyForward : Nat := 159
def KeyCloseCD : Nat := 160
def KeyEjectCD : Nat := 161
def KeyEjectCloseCD : Nat := 162
def KeyNextSong : Nat := 163
def KeyPlayPause : Nat := 164
def KeyPreviousSong : Nat := 165
def KeyStopCD : Nat := 166
def KeyRecord : Nat := 167
def KeyRewind : Nat := 168
def KeyPhone : Nat := 169
def KeyISO : Nat := 170
def KeyConfig : Nat := 171
def KeyHomepage : Nat := 172
def KeyRefresh : Nat := 173
def KeyExit : Nat := 174
def KeyMove : Nat := 175
def KeyEdit : Nat := 176
def KeyScrollUp : Nat := 177
def KeyScrollDown : Nat := 178
def KeyKPLeftParen : Nat := 179
def KeyKPRightParen : Nat := 180
def KeyNew : Nat := 181
def KeyRedo : Nat := 182
def KeyF13 : Nat := 183
def KeyF14 : Nat := 184
def KeyF15 : Nat := 185
def KeyF16 : Nat := 186
def KeyF17 : Nat := 187
def KeyF18 : Nat := 188
def KeyF19 : Nat := 189
def KeyF20 : Nat := 190
def KeyF21 : Nat := 191
def KeyF22 : Nat := 192
def KeyF23 : Nat := 193
def KeyF24 : Nat := 194
def KeyPlayCD : Nat := 200
def KeyPauseCD : Nat := 201
def KeyProg3 : Nat := 202
def KeyProg4 : Nat := 203
def KeyDashboard : Nat := 204
def KeySuspend : Nat := 205
def KeyClose : Nat := 206
def KeyPlay : Nat := 207
def KeyFastForward : Nat := 208
def KeyBassBoost : Nat := 209
def KeyPrint : Nat := 210
def KeyHP : Nat := 211
def KeyCanera : Nat := 212
def KeySound : Nat := 213
def KeyQuestion : Nat := 214
def KeyEmail : Nat := 215
def KeyChat : Nat := 216
def KeySearch : Nat := 217
def KeyConnect : Nat := 218
def KeyFinance : Nat := 219
def KeySport : Nat := 220
def KeyShop : Nat := 221
def KeyAltErase : Nat := 222
def KeyCancel : Nat := 223
def KeyBrightnessDown : Nat := 224
def KeyBrightnessUp : Nat := 225
def KeyMedia : Nat := 226
def KeySwitchVideoMode : Nat := 227
def KeyKBDIllumToggle : Nat := 228
def KeyKBDIllumDown : Nat := 229
def KeyKBDIllumUp : Nat := 230
def KeySend : Nat := 231
def KeyReply : Nat := 232
def KeyForwardMail : Nat := 233
def KeySave : Nat := 234
def KeyDocuments : Nat := 235
def KeyBattery : Nat := 236
def KeyBluetooth : Nat := 237
def KeyWLAN : Nat := 238
def KeyUWB : Nat := 239
def KeyUnknown : Nat := 240
def KeyVideoNext : Nat := 241
def KeyVideoPrevious : Nat := 242
def KeyBrightnessCycle : Nat := 243
def KeyBrightnessZero : Nat := 244
def KeyDisplayOff : Nat := 245
def KeyWIMax : Nat := 246
def KeyRFKill : Nat := 247
def KeyMicMute : Nat := 248
def KeyOk : Nat := 0x160
def KeySelect : Nat := 0x161
def KeyGoto : Nat := 0x162
def KeyClear : Nat := 0x163
def KeyPower2 : Nat := 0x164
def KeyOption : Nat := 0x165
def KeyInfo : Nat := 0x166
def KeyTime : Nat := 0x167
def KeyVendor : Nat := 0x168
def KeyArchive : Nat := 0x169
def KeyProgram : Nat := 0x16a
def KeyChannel : Nat := 0x16b
def KeyFavorites : Nat := 0x16c
def KeyEPG : Nat := 0x16d
def KeyPVR : Nat := 0x16e
def KeyMHP : Nat := 0x16f
def KeyLanguage : Nat := 0x170
def KeyTitle : Nat := 0x171
def KeySubtitle : Nat := 0x172
def KeyAngle : Nat := 0x173
def KeyZoom : Nat := 0x174
def KeyMode : Nat := 0x175
def KeyKeyboard : Nat := 0x176
def KeyScreen : Nat := 0x177
def KeyPC : Nat := 0x178
def KeyTV : Nat := 0x179
def KeyTV2 : Nat := 0x17a
def KeyVCR : Nat := 0x17b
def KeyVCR2 : Nat := 0x17c
def KeySAT : Nat := 0x17d
def KeySAT2 : Nat := 0x17e
def KeyCD : Nat := 0x17f
def KeyTape : Nat := 0x180
def KeyRadio : Nat := 0x181
def KeyTuner : Nat := 0x182
def KeyPlayer : Nat := 0x183
def KeyText : Nat := 0x184
def KeyDVD : Nat := 0x185
def KeyAUX : Nat := 0x186
def KeyMP3 : Nat := 0x187
def KeyAudio : Nat := 0x188
def KeyVideo : Nat := 0x189
def KeyDirectory : Nat := 0x18a
def KeyList : Nat := 0x18b
def KeyMemo : Nat := 0x18c
def KeyCalender : Nat := 0x18d
def KeyRed : Nat := 0x18e
def KeyGreen : Nat := 0x18f
def KeyYellow : Nat := 0x190
def KeyBlue : Nat := 0x191
def KeyChannelUp : Nat := 0x192
def KeyChannelDown : Nat := 0x193
def KeyFirst : Nat := 0x194
def KeyLast : Nat := 0x195
def KeyAB : Nat := 0x196
def KeyNext : Nat := 0x197
def KeyRestart : Nat := 0x198
def KeySlow : Nat := 0x199
def KeyShuffle : Nat := 0x19a
def KeyBreak : Nat := 0x19b
def KeyPrevious : Nat := 0x19c
def KeyDigits : Nat := 0x19d
def KeyTeen : Nat := 0x19e
def KeyTwen : Nat := 0x19f
def KeyVideoPhone : Nat := 0x1a0
def KeyGames : Nat := 0x1a1
def KeyZoomIn : Nat := 0x1a2
def KeyZoomOut : Nat := 0x1a3
def KeyZoomReset : Nat := 0x1a4
def KeyWordProcessor : Nat := 0x1a5
def KeyEditor : Nat := 0x1a6
def KeySpreadsheet : Nat := 0x1a7
def KeyGraphicsEditor : Nat := 0x1a8
def KeyPresentation : Nat := 0x1a9
def KeyDatabase : Nat := 0x1aa
def KeyNews : Nat := 0x1ab
def KeyVoiceMail : Nat := 0x1ac
def KeyAddressBook : Nat := 0x1ad
def KeyMessenger : Nat := 0x1ae
def KeyDisplayToggle : Nat := 0x1af
def KeySpellCheck : Nat := 0x1b0
def KeyLogoff : Nat := 0x1b1
def KeyDollar : Nat := 0x1b2
def KeyEuro : Nat := 0x1b3
def KeyFrameBack : Nat := 0x1b4
def KeyframeForward : Nat := 0x1b5
def KeyContextMenu : Nat := 0x1b6
def KeyMediaRepeat : Nat := 0x1b7
def Key10ChannelsUp : Nat := 0x1b8
def Key10ChannelsDown : Nat := 0x1b9
def KeyImages : Nat := 0x1ba
def KeyDelEOL : Nat := 0x1c0
def KeyDelEOS : Nat := 0x1c1
def KeyInsLine : Nat := 0x1c2
def KeyDelLine : Nat := 0x1c3
def KeyFN : Nat := 0x1d0
def KeyFNEsc : Nat := 0x1d1
def KeyFNF1 : Nat := 0x1d2
def KeyFNF2 : Nat := 0x1d3
def KeyFNF3 : Nat := 0x1d4
def KeyFNF4 : Nat := 0x1d5
def KeyFNF5 : Nat := 0x1d6
def KeyFNF6 : Nat := 0x1d7
def KeyFNF7 : Nat := 0x1d8
def KeyFNF8 : Nat := 0x1d9
def KeyFNF9 : Nat := 0x1da
def KeyFNF10 : Nat := 0x1db
def KeyFNF11 : Nat := 0x1dc
def KeyFNF12 : Nat := 0x1dd
def KeyFN1 : Nat := 0x1de
def KeyFN2 : Nat := 0x1df
def KeyFND : Nat := 0x1e0
def KeyFNE : Nat := 0x1e1
def KeyFNF : Nat := 0x1e2
def KeyFNS : Nat := 0x1e3
def KeyFNB : Nat := 0x1e4
def KeyBRLDot1 : Nat := 0x1f1
def KeyBRLDot2 : Nat := 0x1f2
def KeyBRLDot3 : Nat := 0x1f3
def KeyBRLDot4 : Nat := 0x1f4
def KeyBRLDot5 : Nat := 0x1f5
def KeyBRLDot6 : Nat := 0x1f6
def KeyBRLDot7 : Nat := 0x1f7
def KeyBRLDot8 : Nat := 0x1f8
def KeyBRLDot9 : Nat := 0x1f9
def KeyBRLDot10 : Nat := 0x1fa
def KeyNumeric0 : Nat := 0x200
def KeyNumeric1 : Nat := 0x201
def KeyNumeric2 : Nat := 0x202
def KeyNumeric3 : Nat := 0x203
def KeyNumeric4 : Nat := 0x204
def KeyNumeric5 : Nat := 0x205
def KeyNumeric6 : Nat := 0x206
def KeyNumeric7 : Nat := 0x207
def KeyNumeric8 : Nat := 0x208
def KeyNumeric9 : Nat := 0x209
def KeyNumericStar : Nat := 0x20a
def KeyNumericPound : Nat := 0x20b
def KeyCameraFocus : Nat := 0x210
def KeyWPSButton : Nat := 0x211
def KeyTouchpadToggle : Nat := 0x212
def KeyTouchpadOn : Nat := 0x213
def KeyTouchpadOff : Nat := 0x214
def KeyCameraZoomIn : Nat := 0x215
def KeyCameraZoomOut : Nat := 0x216
def KeyCameraUp : Nat := 0x217
def KeyCameraDown : Nat := 0x218
def KeyCameraLeft : Nat := 0x219
def KeyCameraRight : Nat := 0x21a
def KeyAttendantOn : Nat := 0x21b
def KeyAttendantOff : Nat := 0x21c
def KeyAttendantToggle : Nat := 0x21d
def KeyLightsToggle : Nat := 0x21e
def KeyMinInteresting : Nat := KeyMute
def BtnMisc : Nat := 0x100
def Btn0 : Nat := 0x100
def Btn1 : Nat := 0x101
def Btn2 : Nat := 0x102
def Btn3 : Nat := 0x103
def Btn4 : Nat := 0x104
def Btn5 : Nat := 0x105
def Btn6 : Nat := 0x106
def Btn7 : Nat := 0x107
def Btn8 : Nat := 0x108
def Btn9 : Nat := 0x109
def BtnMouse : Nat := 0x110
def BtnLeft : Nat := 0x110
def BtnRight : Nat := 0x111
def BtnMiddle : Nat := 0x112
def BtnSide : Nat := 0x113
def BtnExtra : Nat := 0x114
def BtnForward : Nat := 0x115
def BtnBack : Nat := 0x116
def BtnTask : Nat := 0x117
def BtnJoystick : Nat := 0x120
def BtnTrigger : Nat := 0x120
def BtnThumb : Nat := 0x121
def BtnThumb2 : Nat := 0x122
def BtnTop : Nat := 0x123
def BtnTop2 : Nat := 0x124
def BtnPinkie : Nat := 0x125
def BtnBase : Nat := 0x126
def BtnBase2 : Nat := 0x127
def BtnBase3 : Nat := 0x128
def BtnBase4 : Nat := 0x129
def BtnBase5 : Nat := 0x12a
def BtnBase6 : Nat := 0x12b
def BtnDead : Nat := 0x12f
def BtnGamepad : Nat := 0x130
def BtnA : Nat := 0x130
def BtnB : Nat := 0x131
def BtnC : Nat := 0x132
def BtnX : Nat := 0x133
def BtnY : Nat := 0x134
def BtnZ : Nat := 0x135
def BtnTL : Nat := 0x136
def BtnTR : Nat := 0x137
def BtnTL2 : Nat := 0x138
def BtnTR2 : Nat := 0x139
def BtnSelect : Nat := 0x13a
def BtnStart : Nat := 0x13b
def BtnMode : Nat := 0x13c
def BtnThumbL : Nat := 0x13d
def BtnThumbR : Nat := 0x13e
def BtnDigi : Nat := 0x140
def BtnToolPen : Nat := 0x140
def BtnTooLRubber : Nat := 0x141
def BtnToolBrush : Nat := 0x142
def BtnToolPencil : Nat := 0x143
def BtnToolAirbrush : Nat := 0x144
def BtnToolFinger : Nat := 0x145
def BtnToolMouse : Nat := 0x146
def BtnToolLens : Nat := 0x147
def BtnToolQuintTap : Nat := 0x148
def BtnTouch : Nat := 0x14a
def BtnStylus : Nat := 0x14b
def BtnStylus2 : Nat := 0x14c
def BtnToolDoubleTap : Nat := 0x14d
def BtnToolTrippleTap : Nat := 0x14e
def BtnToolQuadTap : Nat := 0x14f
def BtnWheel : Nat := 0x150
def BtnGearDown : Nat := 0x150
def BtnGearUp : Nat := 0x151
def BtnTriggerHappy : Nat := 0x2c0
def BtnTriggerHappy1 : Nat := 0x2c0
def BtnTriggerHappy2 : Nat := 0x2c1
def BtnTriggerHappy3 : Nat := 0x2c2
def BtnTriggerHappy4 : Nat := 0x2c3
def BtnTriggerHappy5 : Nat := 0x2c4
def BtnTriggerHappy6 : Nat := 0x2c5
def BtnTriggerHappy7 : Nat := 0x2c6
def BtnTriggerHappy8 : Nat := 0x2c7
def BtnTriggerHappy9 : Nat := 0x2c8
def BtnTriggerHappy10 : Nat := 0x2c9
def BtnTriggerHappy11 : Nat := 0x2ca
def BtnTriggerHappy12 : Nat := 0x2cb
def BtnTriggerHappy13 : Nat := 0x2cc
def BtnTriggerHappy14 : Nat := 0x2cd
def BtnTriggerHappy15 : Nat := 0x2ce
def BtnTriggerHappy16 : Nat := 0x2cf
def BtnTriggerHappy17 : Nat := 0x2d0
def BtnTriggerHappy18 : Nat := 0x2d1
def BtnTriggerHappy19 : Nat := 0x2d2
def BtnTriggerHappy20 : Nat := 0x2d3
def BtnTriggerHappy21 : Nat := 0x2d4
def BtnTriggerHappy22 : Nat := 0x2d5
def BtnTriggerHappy23 : Nat := 0x2d6
def BtnTriggerHappy24 : Nat := 0x2d7
def BtnTriggerHappy25 : Nat := 0x2d8
def BtnTriggerHappy26 : Nat := 0x2d9
def BtnTriggerHappy27 : Nat := 0x2da
def BtnTriggerHappy28 : Nat := 0x2db
def BtnTriggerHappy29 : Nat := 0x2dc
def BtnTriggerHappy30 : Nat := 0x2dd
def BtnTriggerHappy31 : Nat := 0x2de
def BtnTriggerHappy32 : Nat := 0x2df
def BtnTriggerHappy33 : Nat := 0x2e0
def BtnTriggerHappy34 : Nat := 0x2e1
def BtnTriggerHappy35 : Nat := 0x2e2
def BtnTriggerHappy36 : Nat := 0x2e3
def BtnTriggerHappy37 : Nat := 0x2e4
def BtnTriggerHappy38 : Nat := 0x2e5
def BtnTriggerHappy39 : Nat := 0x2e6
def BtnTriggerHappy40 : Nat := 0x2e7

/-- Every named key/button code constant of the tables in `src/keys.go`,
in source order. -/
def allNamedCodes : List Nat :=
  [KeyReserved, KeyEscape, Key1, Key2, Key3, Key4,
   Key5, Key6, Key7, Key8, Key9, Key0,
   KeyMinus, KeyEqual, KeyBackSpace, KeyTab, KeyQ, KeyW,
   KeyE, KeyR, KeyT, KeyY, KeyU, KeyI,
   KeyO, KeyP, KeyLeftBrace, KeyRightBrace, KeyEnter, KeyLeftCtrl,
   KeyA, KeyS, KeyD, KeyF, KeyG, KeyH,
   KeyJ, KeyK, KeyL, KeySemiColon, KeyApostrophe, KeyGrave,
   KeyLeftShift, KeyBackSlash, KeyZ, KeyX, KeyC, KeyV,
   KeyB, KeyN, KeyM, KeyComma, KeyDot, KeySlash,
   KeyRightShift, KeyKPAsterisk, KeyLeftAlt, KeySpace, KeyCapsLock, KeyF1,
   KeyF2, KeyF3, KeyF4, KeyF5, KeyF6, KeyF7,
   KeyF8, KeyF9, KeyF10, KeyNumLock, KeyScrollLock, KeyKP7,
   KeyKP8, KeyKP9, KeyKPMinus, KeyKP4, KeyKP5, KeyKP6,
   KeyKPPlus, KeyKP1, KeyKP2, KeyKP3, KeyKP0, KeyKPDot,
   KeyZenkakuhankaku, Key102ND, KeyF11, KeyF12, KeyRO, KeyKatakana,
   KeyHiragana, KeyHenkan, KeyKatakanaHiragana, KeyMuhenkan, KeyKPJPComma, KeyKPEnter,
   KeyRightCtrl, KeyKPSlash, KeySysRQ, KeyRightAlt, KeyLineFeed, KeyHome,
   KeyUp, KeyPageUp, KeyLeft, KeyRight, KeyEnd, KeyDown,
   KeyPageDown, KeyInsert, KeyDelete, KeyMacro, KeyMute, KeyVolumeDown,
   KeyVolumeUp, KeyPower, KeyKPEqual, KeyKPPlusMinus, KeyPause, KeyScale,
   KeyKPComma, KeyHangeul, KeyHanguel, KeyHanja, KeyYen, KeyLeftMeta,
   KeyRightMeta, KeyCompose, KeyStop, KeyAgain, KeyProps, KeyUndo,
   KeyFront, KeyCopy, KeyOpen, KeyPaste, KeyFind, KeyCut,
   KeyHelp, KeyMenu, KeyCalc, KeySetup, KeySleep, KeyWakeup,
   KeyFile, KeySendFile, KeyDeleteFile, KeyXFer, KeyProg1, KeyProg2,
   KeyWWW, KeyMSDOS, KeyCoffee, KeyScreenlock, KeyDirection, KeyCycleWindows,
   KeyMail, KeyBookmarks, KeyComputer, KeyBack, KeyForward, KeyCloseCD,
   KeyEjectCD, KeyEjectCloseCD, KeyNextSong, KeyPlayPause, KeyPreviousSong, KeyStopCD,
   KeyRecord, KeyRewind, KeyPhone, KeyISO, KeyConfig, KeyHomepage,
   KeyRefresh, KeyExit, KeyMove, KeyEdit, KeyScrollUp, KeyScrollDown,
   KeyKPLeftParen, KeyKPRightParen, KeyNew, KeyRedo, KeyF13, KeyF14,
   KeyF15, KeyF16, KeyF17, KeyF18, KeyF19, KeyF20,
   KeyF21, KeyF22, KeyF23, KeyF24, KeyPlayCD, KeyPauseCD,
   KeyProg3, KeyProg4, KeyDashboard, KeySuspend, KeyClose, KeyPlay,
   KeyFastForward, KeyBassBoost, KeyPrint, KeyHP, KeyCanera, KeySound,
   KeyQuestion, KeyEmail, KeyChat, KeySearch, KeyConnect, KeyFinance,
   KeySport, KeyShop, KeyAltErase, KeyCancel, KeyBrightnessDown, KeyBrightnessUp,
   KeyMedia, KeySwitchVideoMode, KeyKBDIllumToggle, KeyKBDIllumDown, KeyKBDIllumUp, KeySend,
   KeyReply, KeyForwardMail, KeySave, KeyDocuments, KeyBattery, KeyBluetooth,
   KeyWLAN, KeyUWB, KeyUnknown, KeyVideoNext, KeyVideoPrevious, KeyBrightnessCycle,
   KeyBrightnessZero, KeyDisplayOff, KeyWIMax, KeyRFKill, KeyMicMute, KeyOk,
   KeySelect, KeyGoto, KeyClear, KeyPower2, KeyOption, KeyInfo,
   KeyTime, KeyVendor, KeyArchive, KeyProgram, KeyChannel, KeyFavorites,
   KeyEPG, KeyPVR, KeyMHP, KeyLanguage, KeyTitle, KeySubtitle,
   KeyAngle, KeyZoom, KeyMode, KeyKeyboard, KeyScreen, KeyPC,
   KeyTV, KeyTV2, KeyVCR, KeyVCR2, KeySAT, KeySAT2,
   KeyCD, KeyTape, KeyRadio, KeyTuner, KeyPlayer, KeyText,
   KeyDVD, KeyAUX, KeyMP3, KeyAudio, KeyVideo, KeyDirectory,
   KeyList, KeyMemo, KeyCalender, KeyRed, KeyGreen, KeyYellow,
   KeyBlue, KeyChannelUp, KeyChannelDown, KeyFirst, KeyLast, KeyAB,
   KeyNext, KeyRestart, KeySlow, KeyShuffle, KeyBreak, KeyPrevious,
   KeyDigits, KeyTeen, KeyTwen, KeyVideoPhone, KeyGames, KeyZoomIn,
   KeyZoomOut, KeyZoomReset, KeyWordProcessor, KeyEditor, KeySpreadsheet, KeyGraphicsEditor,
   KeyPresentation, KeyDatabase, KeyNews, KeyVoiceMail, KeyAddressBook, KeyMessenger,
   KeyDisplayToggle, KeySpellCheck, KeyLogoff, KeyDollar, KeyEuro, KeyFrameBack,
   KeyframeForward, KeyContextMenu, KeyMediaRepeat, Key10ChannelsUp, Key10ChannelsDown, KeyImages,
   KeyDelEOL, KeyDelEOS, KeyInsLine, KeyDelLine, KeyFN, KeyFNEsc,
   KeyFNF1, KeyFNF2, KeyFNF3, KeyFNF4, KeyFNF5, KeyFNF6,
   KeyFNF7, KeyFNF8, KeyFNF9, KeyFNF10, KeyFNF11, KeyFNF12,
   KeyFN1, KeyFN2, KeyFND, KeyFNE, KeyFNF, KeyFNS,
   KeyFNB, KeyBRLDot1, KeyBRLDot2, KeyBRLDot3, KeyBRLDot4, KeyBRLDot5,
   KeyBRLDot6, KeyBRLDot7, KeyBRLDot8, KeyBRLDot9, KeyBRLDot10, KeyNumeric0,
   KeyNumeric1, KeyNumeric2, KeyNumeric3, KeyNumeric4, KeyNumeric5, KeyNumeric6,
   KeyNumeric7, KeyNumeric8, KeyNumeric9, KeyNumericStar, KeyNumericPound, KeyCameraFocus,
   KeyWPSButton, KeyTouchpadToggle, KeyTouchpadOn, KeyTouchpadOff, KeyCameraZoomIn, KeyCameraZoomOut,
   KeyCameraUp, KeyCameraDown, KeyCameraLeft, KeyCameraRight, KeyAttendantOn, KeyAttendantOff,
   KeyAttendantToggle, KeyLightsToggle, KeyMinInteresting, BtnMisc, Btn0, Btn1,
   Btn2, Btn3, Btn4, Btn5, Btn6, Btn7,
   Btn8, Btn9, BtnMouse, BtnLeft, BtnRight, BtnMiddle,
   BtnSide, BtnExtra, BtnForward, BtnBack, BtnTask, BtnJoystick,
   BtnTrigger, BtnThumb, BtnThumb2, BtnTop, BtnTop2, BtnPinkie,
   BtnBase, BtnBase2, BtnBase3, BtnBase4, BtnBase5, BtnBase6,
   BtnDead, BtnGamepad, BtnA, BtnB, BtnC, BtnX,
   BtnY, BtnZ, BtnTL, BtnTR, BtnTL2, BtnTR2,
   BtnSelect, BtnStart, BtnMode, BtnThumbL, BtnThumbR, BtnDigi,
   BtnToolPen, BtnTooLRubber, BtnToolBrush, BtnToolPencil, BtnToolAirbrush, BtnToolFinger,
   BtnToolMouse, BtnToolLens, BtnToolQuintTap, BtnTouch, BtnStylus, BtnStylus2,
   BtnToolDoubleTap, BtnToolTrippleTap, BtnToolQuadTap, BtnWheel, BtnGearDown, BtnGearUp,
   BtnTriggerHappy, BtnTriggerHappy1, BtnTriggerHappy2, BtnTriggerHappy3, BtnTriggerHappy4, BtnTriggerHappy5,
   BtnTriggerHappy6, BtnTriggerHappy7, BtnTriggerHappy8, BtnTriggerHappy9, BtnTriggerHappy10, BtnTriggerHappy11,
   BtnTriggerHappy12, BtnTriggerHappy13, BtnTriggerHappy14, BtnTriggerHappy15, BtnTriggerHappy16, BtnTriggerHappy17,
   BtnTriggerHappy18, BtnTriggerHappy19, BtnTriggerHappy20, BtnTriggerHappy21, BtnTriggerHappy22, BtnTriggerHappy23,
   BtnTriggerHappy24, BtnTriggerHappy25, BtnTriggerHappy26, BtnTriggerHappy27, BtnTriggerHappy28, BtnTriggerHappy29,
   BtnTriggerHappy30, BtnTriggerHappy31, BtnTriggerHappy32, BtnTriggerHappy33, BtnTriggerHappy34, BtnTriggerHappy35,
   BtnTriggerHappy36, BtnTriggerHappy37, BtnTriggerHappy38, BtnTriggerHappy39, BtnTriggerHappy40]

/-- A kernel on which every keymap/keystate ioctl fails: the witness of
the error paths. -/
def kernelInert : Kernel :=
  { getKeycode := fun _ => none
    setKeycode := fun _ => some (.errno 19)
    keyBits := fun _ => false
    getKeyOk := false
    typeBits := fun _ => false
    getTypesOk := false }

/-- An open device whose keymap/keystate ioctls all fail. -/
def devFail : Device := { closed := false, kernel := kernelInert }

/-- A device on which `Close()` has completed. -/
def devClosed : Device := { closed := true, kernel := kernelInert }

/-- Modelled from the spec: the kernel side maintains the keymap-entry
invariant — an entry it hands back has `Len ≤ 32`, and it accepts a
`set-keycode` request only when `Len ≤ 32` (the scancode buffer holds 32
bytes). -/
def Kernel.WF (k : Kernel) : Prop :=
  (∀ req e, k.getKeycode req = some e → e.Len ≤ 32) ∧
  (∀ e, k.setKeycode e = none → e.Len ≤ 32)

/-- A concrete kernel that maintains the keymap-entry invariant. -/
def kernelStrict : Kernel :=
  { getKeycode := fun _ => none
    setKeycode := fun e => if e.Len ≤ 32 then none else some (.errno 22)
    keyBits := fun _ => false
    getKeyOk := true
    typeBits := fun _ => false
    getTypesOk := true }

/-- An open device backed by `kernelStrict`. -/
def devStrict : Device := { closed := false, kernel := kernelStrict }

/-- A raw 24-byte event record (all zero). -/
def rawRecA : List Nat := List.replicate 24 0

/-- A raw 24-byte event record with a nonzero value byte. -/
def rawRecB : List Nat := List.replicate 23 0 ++ [1]

set_option maxRecDepth 4096

/-- A freshly allocated bitset has every bit unset, at every index. -/
theorem newBitset_Test_false (m i : Nat) : (NewBitset m).Test i = false := by
  simp [NewBitset, Bitset.Test, List.getD]

/-- The kernel `kernelStrict` satisfies the keymap-entry invariant. -/
theorem kernelStrict_wf : Kernel.WF devStrict.kernel := by
  constructor
  · intro req e h
    simp [devStrict, kernelStrict] at h
  · intro e h
    simp [devStrict, kernelStrict] at h
    by_cases hl : e.Len ≤ 32
    · exact hl
    · simp [hl] at h

/-- C2: `KeyState()` always returns a bitset whose declared bit capacity
is `KeyMax = 0x2ff` and whose storage covers `KeyCount = KeyMax + 1` bit
indices, so every key/button code has a corresponding index in the
snapshot. -/
theorem keyState_sized_to_KeyMax (d : Device) :
    (d.KeyState).Len = KeyMax ∧ KeyMax = 0x2ff ∧
    (d.KeyState).data.length = KeyCount := by
  unfold Device.KeyState ioctlGetKey
  by_cases h : (d.closed || !d.kernel.getKeyOk) = true
  · simp [h, NewBitset, Bitset.Len, KeyMax, KeyCount]
  · simp [h, NewBitset, Bitset.Len, KeyMax, KeyCount]

/-- C4: when the underlying key-state ioctl fails, `KeyState()` returns
the fresh zeroed bitset — every bit is unset — rather than an error. -/
theorem keyState_failure_all_unset (d : Device)
    (h : ioctlGetKey d (NewBitset KeyMax) = none) :
    ∀ i, (d.KeyState).Test i = false := by
  intro i
  unfold Device.KeyState
  rw [h]
  simp [NewBitset, Bitset.Test, List.getD]

/-- C4 witness: on a closed device the key-state ioctl fails and the
snapshot has (for instance) bit 30 unset. -/
theorem keyState_failure_all_unset_witness :
    ioctlGetKey devClosed (NewBitset KeyMax) = none ∧
    (devClosed.KeyState).Test 30 = false :=
  ⟨by decide, keyState_failure_all_unset devClosed (by decide) 30⟩

/-- C1 (amended): `KeyMap(keycode)` returns the kernel-populated entry
when the ioctl succeeds; when the ioctl fails it returns the untouched
request record — zero in every field except `Keycode`, which holds
`uint32(keycode)`. -/
theorem keyMap_result (d : Device) (kc : Int) :
    (∀ e, ioctlGetKeycode d (keyMapRequest kc) = some e → d.KeyMap kc = e) ∧
    (ioctlGetKeycode d (keyMapRequest kc) = none →
      d.KeyMap kc = { KeymapEntry.zero with Keycode := goUint32 kc }) := by
  constructor
  · intro e he
    unfold Device.KeyMap
    rw [he]
  · intro hn
    unfold Device.KeyMap
    rw [hn]
    rfl

/-- C1 witness: on `devFail` the get-keycode ioctl fails and
`KeyMap 30` is the request record itself. -/
theorem keyMap_result_witness :
    ioctlGetKeycode devFail (keyMapRequest 30) = none ∧
    devFail.KeyMap 30 = { KeymapEntry.zero with Keycode := goUint32 30 } :=
  ⟨by decide, (keyMap_result devFail 30).2 (by decide)⟩

/-- C1 counterexample: when the ioctl fails, the returned entry is not
zero-valued — for keycode 30 its `Keycode` field is 30, not 0, because
`KeyMap` sets `entry.Keycode = uint32(keycode)` before the ioctl and the
failing ioctl leaves the record untouched. -/
theorem keyMap_failure_keycode_not_zero :
    ioctlGetKeycode devFail (keyMapRequest 30) = none ∧
    (devFail.KeyMap 30).Keycode = 30 ∧ (30 : Nat) ≠ 0 := by decide

/-- C3: `SetKeyMap(entry)` returns `true` exactly when the set-keycode
ioctl succeeds (returns no error), and `false` on any ioctl failure; it
returns a plain boolean, never an error value. -/
theorem setKeyMap_true_iff_ioctl_nil (d : Device) (entry : KeymapEntry) :
    d.SetKeyMap entry = true ↔ ioctlSetKeycode d entry = none := by
  unfold Device.SetKeyMap
  exact Option.isNone_iff_eq_none

/-- C7: for every `int` keycode, the 32-bit `Keycode` field of the
request record `KeyMap` hands to the kernel is the input reduced modulo
`2^32` — congruent to the input and below `2^32` — with no range
validation anywhere. -/
theorem keyMap_request_keycode_mod (kc : Int) :
    ((keyMapRequest kc).Keycode : Int) % 2 ^ 32 = kc % 2 ^ 32 ∧
    (keyMapRequest kc).Keycode < 2 ^ 32 := by
  have hnn : (0 : Int) ≤ kc % 2 ^ 32 := Int.emod_nonneg kc (by norm_num)
  have hlt : kc % 2 ^ 32 < 2 ^ 32 := Int.emod_lt_of_pos kc (by norm_num)
  constructor
  · show ((goUint32 kc : Nat) : Int) % 2 ^ 32 = kc % 2 ^ 32
    unfold goUint32
    rw [Int.toNat_of_nonneg hnn]
    omega
  · show goUint32 kc < 2 ^ 32
    unfold goUint32
    omega

/-- C8 (amended): on a device whose `Close()` has completed, every query
degrades gracefully — `EventTypes` and `KeyState` return all-unset
bitsets, `SetKeyMap` returns `false`, and `KeyMap` returns its
failure-path record (zero except `Keycode`, which holds
`uint32(keycode)`); all four are total functions, so none crashes or
hangs in this model. -/
theorem closed_device_queries (k : Kernel) (kc : Int) (e : KeymapEntry) :
    (∀ i, ((Device.mk true k).EventTypes).Test i = false) ∧
    (∀ i, ((Device.mk true k).KeyState).Test i = false) ∧
    (Device.mk true k).SetKeyMap e = false ∧
    (Device.mk true k).KeyMap kc = { KeymapEntry.zero with Keycode := goUint32 kc } := by
  refine ⟨fun i => ?_, fun i => ?_, ?_, ?_⟩
  · unfold Device.EventTypes ioctlGetTypes
    simp [newBitset_Test_false]
  · unfold Device.KeyState ioctlGetKey
    simp [newBitset_Test_false]
  · unfold Device.SetKeyMap ioctlSetKeycode
    simp
  · unfold Device.KeyMap ioctlGetKeycode
    simp [keyMapRequest]

/-- C8 counterexample: after `Close()`, `KeyMap 7` does not return the
documented empty (zero-valued) entry — its `Keycode` field holds 7. -/
theorem closed_keyMap_keycode_not_zero :
    devClosed.closed = true ∧ (devClosed.KeyMap 7).Keycode = 7 ∧ (7 : Nat) ≠ 0 := by decide

/-- C6: against a kernel maintaining the keymap invariant, every entry
`KeyMap` constructs has `Len ≤ 32` (on the failure path `Len = 0`), and
`SetKeyMap` reports success only for an entry with `Len ≤ 32`; the
library itself performs no check. -/
theorem keymap_len_invariant (d : Device) (kc : Int) (e : KeymapEntry)
    (hwf : Kernel.WF d.kernel) :
    (d.KeyMap kc).Len ≤ 32 ∧ (d.SetKeyMap e = true → e.Len ≤ 32) := by
  constructor
  · unfold Device.KeyMap
    cases h : ioctlGetKeycode d (keyMapRequest kc) with
    | some e' =>
        unfold ioctlGetKeycode at h
        cases hc : d.closed with
        | true => rw [hc] at h; simp at h
        | false => rw [hc] at h; simp at h; exact hwf.1 _ _ h
    | none => simp [keyMapRequest, KeymapEntry.zero]
  · intro hs
    unfold Device.SetKeyMap at hs
    rw [Option.isNone_iff_eq_none] at hs
    unfold ioctlSetKeycode at hs
    cases hc : d.closed with
    | true => rw [hc] at hs; simp at hs
    | false => rw [hc] at hs; simp at hs; exact hwf.2 _ hs

/-- C6 witness: on `devStrict` (whose kernel maintains the invariant)
`KeyMap 5` has `Len ≤ 32`, and the zero entry accepted by `SetKeyMap`
has `Len ≤ 32`. -/
theorem keymap_len_invariant_witness :
    (devStrict.KeyMap 5).Len ≤ 32 ∧ KeymapEntry.zero.Len ≤ 32 :=
  ⟨(keymap_len_invariant devStrict 5 KeymapEntry.zero kernelStrict_wf).1,
   (keymap_len_invariant devStrict 5 KeymapEntry.zero kernelStrict_wf).2 (by decide)⟩

/-- C10: every named key and button constant of the tables lies in
`[0, KeyMax]` with `KeyMax = 0x2ff`, and `KeyCount = KeyMax + 1`, so
every named code has an index in the key-state snapshot's code domain. -/
theorem named_codes_in_range :
    (∀ c ∈ allNamedCodes, c ≤ KeyMax) ∧ KeyMax = 0x2ff ∧ KeyCount = KeyMax + 1 := by
  refine ⟨by decide, rfl, rfl⟩

/-- C10 witness: `KeyA` is one of the named codes and lies in range. -/
theorem named_codes_in_range_witness :
    KeyA ∈ allNamedCodes ∧ KeyA ≤ KeyMax :=
  ⟨by decide, named_codes_in_range.1 KeyA (by decide)⟩

/-- C5: the wire image of a `KeymapEntry` is exactly 40 bytes —
1-byte `Flags`, 1-byte `Len`, 2-byte `Index`, 4-byte `Keycode`, 32-byte
`Scancode`, in that order — and reading the fields back from their fixed
offsets recovers the record. -/
theorem keymapEntry_wire_layout (e : KeymapEntry)
    (hf : e.Flags < 2 ^ 8) (hl : e.Len < 2 ^ 8)
    (hi : e.Index < 2 ^ 16) (hk : e.Keycode < 2 ^ 32) :
    e.wireBytes.length = 40 ∧
    KeymapEntry.ofWireBytes e.wireBytes = e := by
  obtain ⟨F, L, I, K, S⟩ := e
  simp only [KeymapEntry.wireBytes, u16le, u32le] at *
  constructor
  · simp
  · simp only [List.cons_append, List.append_assoc, List.nil_append]
    simp only [KeymapEntry.ofWireBytes]
    simp only [KeymapEntry.mk.injEq]
    refine ⟨?_, ?_, ?_, ?_, ?_⟩
    · exact Nat.mod_eq_of_lt hf
    · exact Nat.mod_eq_of_lt hl
    · omega
    · omega
    · funext j
      have hj : (j : Nat) < (List.ofFn S).length := by simp
      rw [List.getD_eq_getElem _ _ hj, List.getElem_ofFn]

/-- C5 witness: the zero entry satisfies the field bounds, serialises to
40 bytes and round-trips. -/
theorem keymapEntry_wire_layout_witness :
    (KeymapEntry.zero.Flags < 2 ^ 8 ∧ KeymapEntry.zero.Len < 2 ^ 8 ∧
     KeymapEntry.zero.Index < 2 ^ 16 ∧ KeymapEntry.zero.Keycode < 2 ^ 32) ∧
    KeymapEntry.zero.wireBytes.length = 40 ∧
    KeymapEntry.ofWireBytes KeymapEntry.zero.wireBytes = KeymapEntry.zero :=
  ⟨by decide,
   keymapEntry_wire_layout KeymapEntry.zero (by decide) (by decide) (by decide) (by decide)⟩

/-- C9: when every record of a kernel-produced sequence decodes, the
inbound pump delivers exactly one event per record, and the event at
channel position `i` is the decoding of the record at position `i` — the
order the kernel produced is the order delivered, with no reordering and
no batching. -/
theorem pollInbox_preserves_order (rs : List (List Nat))
    (h : ∀ r ∈ rs, (decodeEvent r).isSome) :
    (pollInbox rs).length = rs.length ∧
    ∀ i : Nat, (pollInbox rs)[i]? = (rs[i]?).bind decodeEvent := by
  induction rs with
  | nil => exact ⟨rfl, fun i => by simp [pollInbox]⟩
  | cons r rs ih =>
      have hr : (decodeEvent r).isSome := h r (by simp)
      obtain ⟨ev, he⟩ := Option.isSome_iff_exists.mp hr
      have hrest : ∀ x ∈ rs, (decodeEvent x).isSome := fun x hx => h x (by simp [hx])
      obtain ⟨ihlen, ihidx⟩ := ih hrest
      constructor
      · simp [pollInbox, he, ihlen]
      · intro i
        cases i with
        | zero => simp [pollInbox, he]
        | succ n =>
            simp only [pollInbox, he]
            simpa using ihidx n

/-- C9 witness: two concrete raw records decode and come off the channel
in their input order. -/
theorem pollInbox_preserves_order_witness :
    (∀ r ∈ [rawRecA, rawRecB], (decodeEvent r).isSome) ∧
    (pollInbox [rawRecA, rawRecB]).length = 2 ∧
    (pollInbox [rawRecA, rawRecB])[1]? = (([rawRecA, rawRecB] : List (List Nat))[(1 : Nat)]?).bind decodeEvent :=
  ⟨by decide,
   (pollInbox_preserves_order [rawRecA, rawRecB] (by decide)).1,
   (pollInbox_preserves_order [rawRecA, rawRecB] (by decide)).2 1⟩

end Evdev
